import Mathlib

/-!
Verification of the Minio object-store adapter
(`backend/src/apiserver/storage/object_store.go`).

The adapter is embedded shallowly:
* bytes are `Nat` (a Go byte is a value below 256; nothing here depends on the
  bound), a blob is a `List Nat`;
* the Minio client interface is a record of pure functions returning
  `Except String _` (the `String` is the opaque underlying client error);
* every adapter operation additionally returns the list of client calls it
  issued, so that claims about which calls are made are provable;
* the Go regular expression `\w+;chunk-signature=\w+` with `ReplaceAllString`
  is modelled byte-for-byte by `stripChunkSignatures` (Go's `\w` is the ASCII
  class `[0-9A-Za-z_]`, and `ReplaceAllString` replaces successive leftmost
  non-overlapping matches);
* `path.Join` / `path.Clean` from the Go standard library are modelled by
  `goPathJoin` / `goPathClean`;
* `util.NewInternalServerError(err, template, args...)` and
  `util.Wrap(err, msg)` are modelled by the `APIError` constructors, keeping
  the format template and its arguments as structured fields;
* the YAML codec (`sigs.k8s.io/yaml`) is an external collaborator and is
  modelled as a record `YamlCodec` of marshal/unmarshal functions.
-/

/-- A blob: an opaque byte sequence (Go `[]byte`). -/
abbrev Blob := List Nat

/-- Go's regexp class `\w`: ASCII `[0-9A-Za-z_]`.  Bytes at or above 128 are
never part of a `\w` match (Go's `\w` is ASCII-only). -/
def isWordByte (b : Nat) : Bool :=
  (48 ≤ b && b ≤ 57) || (65 ≤ b && b ≤ 90) || (97 ≤ b && b ≤ 122) || b == 95

/-- String to byte list, for ASCII content (each char is one byte). -/
def toBytes (s : String) : List Nat :=
  s.toList.map Char.toNat

/-- The literal middle part of the pattern `\w+;chunk-signature=\w+`. -/
def chunkSigLiteral : List Nat :=
  toBytes ";chunk-signature="

/-- Match the regex `\w+;chunk-signature=\w+` at the start of `l`, in Go's
leftmost-first greedy semantics: the first `\w+` takes the maximal word run
(the literal begins with `;`, a non-word byte, so no shorter run can succeed),
then the literal, then a maximal nonempty word run.  Returns the remainder
after the match, or `none` when no match starts here. -/
def matchChunkSigAt (l : List Nat) : Option (List Nat) :=
  let run1 := l.takeWhile isWordByte
  let rest1 := l.dropWhile isWordByte
  if run1.isEmpty then none
  else if rest1.take chunkSigLiteral.length = chunkSigLiteral then
    let rest2 := rest1.drop chunkSigLiteral.length
    if (rest2.takeWhile isWordByte).isEmpty then none
    else some (rest2.dropWhile isWordByte)
  else none

/-- Scan `l` left to right replacing each leftmost non-overlapping match of
`\w+;chunk-signature=\w+` with the empty string (`regexp.ReplaceAllString`).
A match consumes at least one byte, so fuel equal to the length of the list
always suffices; the fuel only makes the recursion structural. -/
def stripChunkSigGo : Nat → List Nat → List Nat
  | _, [] => []
  | 0, l => l
  | fuel + 1, b :: rest =>
    match matchChunkSigAt (b :: rest) with
    | some rest2 => stripChunkSigGo fuel rest2
    | none => b :: stripChunkSigGo fuel rest

/-- `re.ReplaceAllString(s, "")` for `re = \w+;chunk-signature=\w+`, at the
byte level.  Matched regions are pure ASCII, and unmatched bytes are copied
verbatim, so the byte-level model is exact. -/
def stripChunkSignatures (l : List Nat) : List Nat :=
  stripChunkSigGo l.length l

/-- `true` iff some substring of `l` matches `\w+;chunk-signature=\w+`.
A substring match `w1 ++ chunkSigLiteral ++ w2` (with `w1`, `w2` nonempty word
runs) exists somewhere iff `matchChunkSigAt` succeeds at some position, since
the byte before the literal position is a word byte and the literal starts
with a non-word byte. -/
def hasChunkSig : List Nat → Bool
  | [] => false
  | b :: rest => (matchChunkSigAt (b :: rest)).isSome || hasChunkSig rest

/-- Split a character list at `/` separators, keeping empty components. -/
def splitOnSlash (l : List Char) : List (List Char) :=
  List.foldr
    (fun c acc =>
      match acc with
      | [] => [[c]]
      | cur :: rest => if c = '/' then [] :: cur :: rest else (c :: cur) :: rest)
    [[]] l

/-- One step of Go `path.Clean`'s element processing: `..` pops a previous
element when one exists (and is not itself `..`); at the root it is dropped
when the path is rooted and kept otherwise.  The accumulator is reversed. -/
def cleanStep (rooted : Bool) (acc : List (List Char)) (c : List Char) : List (List Char) :=
  if c = ['.', '.'] then
    match acc with
    | [] => if rooted then [] else [['.', '.']]
    | a :: rest => if a = ['.', '.'] then c :: a :: rest else rest
  else
    c :: acc

/-- Join path components with `/`. -/
def joinComps : List (List Char) → List Char
  | [] => []
  | [c] => c
  | c :: cs => c ++ '/' :: joinComps cs

/-- Go `path.Clean`: collapse multiple slashes, drop `.` elements, resolve
`..` against preceding elements, drop `..` at the root of a rooted path,
return `.` for an empty result of a non-rooted path. -/
def goPathClean (p : String) : String :=
  if p = "" then "."
  else
    let chars := p.data
    let rooted : Bool := chars.take 1 == ['/']
    let comps := (splitOnSlash chars).filter (fun c => !c.isEmpty && c ≠ ['.'])
    let body := joinComps ((comps.foldl (cleanStep rooted) []).reverse)
    if rooted then String.mk ('/' :: body)
    else (if body.isEmpty then "." else String.mk body)

/-- Go `path.Join` for two elements: empty elements contribute nothing, the
rest are joined with `/` and the result is cleaned; all-empty input gives
the empty string. -/
def goPathJoin (e1 e2 : String) : String :=
  if e1 = "" && e2 = "" then ""
  else if e1 = "" then goPathClean e2
  else goPathClean (e1 ++ "/" ++ e2)

/-- Errors produced by the adapter, mirroring
`util.NewInternalServerError(err, template, args...)` (cause, format template
and format arguments kept structured) and `util.Wrap(err, message)`. -/
inductive APIError where
  | internalServerError (cause : String) (template : String) (args : List String)
  | wrapped (inner : APIError) (message : String)
deriving DecidableEq, Repr

/-- The original underlying cause of an error, through any wrapping. -/
def APIError.rootCause : APIError → String
  | .internalServerError c _ _ => c
  | .wrapped inner _ => inner.rootCause

/-- One call issued to the underlying Minio client. -/
inductive ClientCall where
  | putObject (bucket key : String) (data : Blob) (size : Int) (contentType : String)
  | getObject (bucket key : String)
  | deleteObject (bucket key : String)
deriving DecidableEq, Repr

/-- The injected Minio client (`MinioClientInterface`): put, get, delete,
each a pure function returning `Except` (the `String` is the opaque client
error).  `putObject` receives bucket, key, content, declared size and content
type; `getObject` returns the fully read object bytes. -/
structure MinioClientInterface where
  putObject : String → String → Blob → Int → String → Except String Unit
  getObject : String → String → Except String Blob
  deleteObject : String → String → Except String Unit

/-- `MinioObjectStore`: client reference, bucket name, base folder and the
single-part/multi-part flag. -/
structure MinioObjectStore where
  minioClient : MinioClientInterface
  bucketName : String
  baseFolder : String
  disableMultipart : Bool

/-- `multipartDefaultSize = -1`: the "size unknown / streamed" sentinel. -/
def multipartDefaultSize : Int := -1

/-- `GetPipelineKey` joins the configured base folder with the pipeline id. -/
def MinioObjectStore.GetPipelineKey (m : MinioObjectStore) (pipelineID : String) : String :=
  goPathJoin m.baseFolder pipelineID

/-- `AddFile`: declared size is the exact byte length when `disableMultipart`
is set, otherwise the `multipartDefaultSize` sentinel; one `PutObject` call
with content type `application/octet-stream`; on failure the client error is
wrapped as `Failed to store file %v`. -/
def MinioObjectStore.AddFile (m : MinioObjectStore) (file : Blob) (filePath : String) :
    Except APIError Unit × List ClientCall :=
  let parts : Int := if m.disableMultipart then (file.length : Int) else multipartDefaultSize
  let call := ClientCall.putObject m.bucketName filePath file parts "application/octet-stream"
  match m.minioClient.putObject m.bucketName filePath file parts "application/octet-stream" with
  | Except.error e =>
      (Except.error (APIError.internalServerError e "Failed to store file %v" [filePath]), [call])
  | Except.ok _ => (Except.ok (), [call])

/-- `DeleteFile`: one `DeleteObject` call; on failure the client error is
wrapped as `Failed to delete file %v`. -/
def MinioObjectStore.DeleteFile (m : MinioObjectStore) (filePath : String) :
    Except APIError Unit × List ClientCall :=
  let call := ClientCall.deleteObject m.bucketName filePath
  match m.minioClient.deleteObject m.bucketName filePath with
  | Except.error e =>
      (Except.error (APIError.internalServerError e "Failed to delete file %v" [filePath]), [call])
  | Except.ok _ => (Except.ok (), [call])

/-- `GetFile`: one `GetObject` call, read fully; on failure the client error
is wrapped as `Failed to get file %v`; when `disableMultipart` is set, every
match of `\w+;chunk-signature=\w+` is removed from the bytes. -/
def MinioObjectStore.GetFile (m : MinioObjectStore) (filePath : String) :
    Except APIError Blob × List ClientCall :=
  let call := ClientCall.getObject m.bucketName filePath
  match m.minioClient.getObject m.bucketName filePath with
  | Except.error e =>
      (Except.error (APIError.internalServerError e "Failed to get file %v" [filePath]), [call])
  | Except.ok raw =>
      (Except.ok (if m.disableMultipart then stripChunkSignatures raw else raw), [call])

/-- The YAML codec collaborator (`sigs.k8s.io/yaml`): marshal a value of the
caller's type to bytes, unmarshal bytes back. -/
structure YamlCodec (α : Type) where
  marshal : α → Except String Blob
  unmarshal : Blob → Except String α

/-- `AddAsYamlFile`: marshal, then `AddFile`.  A marshal failure is wrapped as
`Failed to marshal file %v: %v` and issues no client call; an `AddFile`
failure is wrapped as `Failed to add a yaml file`. -/
def MinioObjectStore.AddAsYamlFile {α : Type} (m : MinioObjectStore) (codec : YamlCodec α)
    (o : α) (filePath : String) : Except APIError Unit × List ClientCall :=
  match codec.marshal o with
  | Except.error e =>
      (Except.error (APIError.internalServerError e "Failed to marshal file %v: %v" [filePath, e]), [])
  | Except.ok bs =>
      match m.AddFile bs filePath with
      | (Except.error err, trace) => (Except.error (APIError.wrapped err "Failed to add a yaml file"), trace)
      | (Except.ok _, trace) => (Except.ok (), trace)

/-- `GetFromYamlFile`: `GetFile`, then unmarshal into the out-reference.  The
Go out-parameter `o` becomes explicit: the middle component of the result is
the reference after the call (unchanged unless unmarshal succeeds).  A read
failure is wrapped as `Failed to read from a yaml file`; an unmarshal failure
as `Failed to unmarshal file %v: %v`. -/
def MinioObjectStore.GetFromYamlFile {α : Type} (m : MinioObjectStore) (codec : YamlCodec α)
    (o : α) (filePath : String) : Except APIError Unit × α × List ClientCall :=
  match m.GetFile filePath with
  | (Except.error err, trace) =>
      (Except.error (APIError.wrapped err "Failed to read from a yaml file"), o, trace)
  | (Except.ok bs, trace) =>
      match codec.unmarshal bs with
      | Except.error e =>
          (Except.error (APIError.internalServerError e "Failed to unmarshal file %v: %v" [filePath, e]), o, trace)
      | Except.ok v => (Except.ok (), v, trace)

/-- `NewMinioObjectStore`: the constructor stores the four configuration
fields. -/
def NewMinioObjectStore (minioClient : MinioClientInterface) (bucketName : String)
    (baseFolder : String) (disableMultipart : Bool) : MinioObjectStore :=
  { minioClient := minioClient, bucketName := bucketName,
    baseFolder := baseFolder, disableMultipart := disableMultipart }

/-! ### Receiver-state views

A Go pointer-receiver method is, semantically, a function from the receiver to
the result together with the receiver after the call.  None of the six method
bodies assigns to a field of `m`, so each view returns the receiver as it was
passed in; the definitions below record exactly that translation. -/

/-- Receiver-state view of `GetPipelineKey`. -/
def MinioObjectStore.GetPipelineKeySt (m : MinioObjectStore) (pipelineID : String) :
    String × MinioObjectStore :=
  (m.GetPipelineKey pipelineID, m)

/-- Receiver-state view of `AddFile`. -/
def MinioObjectStore.AddFileSt (m : MinioObjectStore) (file : Blob) (filePath : String) :
    (Except APIError Unit × List ClientCall) × MinioObjectStore :=
  (m.AddFile file filePath, m)

/-- Receiver-state view of `DeleteFile`. -/
def MinioObjectStore.DeleteFileSt (m : MinioObjectStore) (filePath : String) :
    (Except APIError Unit × List ClientCall) × MinioObjectStore :=
  (m.DeleteFile filePath, m)

/-- Receiver-state view of `GetFile`. -/
def MinioObjectStore.GetFileSt (m : MinioObjectStore) (filePath : String) :
    (Except APIError Blob × List ClientCall) × MinioObjectStore :=
  (m.GetFile filePath, m)

/-- Receiver-state view of `AddAsYamlFile`. -/
def MinioObjectStore.AddAsYamlFileSt {α : Type} (m : MinioObjectStore) (codec : YamlCodec α)
    (o : α) (filePath : String) : (Except APIError Unit × List ClientCall) × MinioObjectStore :=
  (m.AddAsYamlFile codec o filePath, m)

/-- Receiver-state view of `GetFromYamlFile`. -/
def MinioObjectStore.GetFromYamlFileSt {α : Type} (m : MinioObjectStore) (codec : YamlCodec α)
    (o : α) (filePath : String) :
    (Except APIError Unit × α × List ClientCall) × MinioObjectStore :=
  (m.GetFromYamlFile codec o filePath, m)

/-! ### Test fixtures: concrete clients and codecs used by the witnesses. -/

/-- A client whose operations all succeed; `getObject` returns `stored`. -/
def okClient (stored : Blob) : MinioClientInterface :=
  { putObject := fun _ _ _ _ _ => Except.ok ()
    getObject := fun _ _ => Except.ok stored
    deleteObject := fun _ _ => Except.ok () }

/-- A client whose operations all fail with the same underlying error. -/
def errClient : MinioClientInterface :=
  { putObject := fun _ _ _ _ _ => Except.error "connection refused"
    getObject := fun _ _ => Except.error "connection refused"
    deleteObject := fun _ _ => Except.error "connection refused" }

/-- A codec over raw byte lists whose marshal/unmarshal are the identity;
faithful in the sense the YAML collaborator contract requires. -/
def bytesCodec : YamlCodec Blob :=
  { marshal := fun v => Except.ok v
    unmarshal := fun bs => Except.ok bs }

/-- A codec that fails both to marshal and to unmarshal. -/
def failingCodec : YamlCodec Blob :=
  { marshal := fun _ => Except.error "unsupported type"
    unmarshal := fun _ => Except.error "error converting YAML to JSON" }

/-! ### Helper lemmas about the chunk-signature scanner. -/

/-- When no position of `l` begins a match, the scan is the identity for any
amount of fuel. -/
theorem stripChunkSigGo_of_no_match (fuel : Nat) :
    ∀ l : List Nat, hasChunkSig l = false → stripChunkSigGo fuel l = l := by
  induction fuel with
  | zero =>
    intro l _
    cases l <;> rfl
  | succ n ih =>
    intro l h
    cases l with
    | nil => rfl
    | cons b rest =>
      have h2 : ((matchChunkSigAt (b :: rest)).isSome || hasChunkSig rest) = false := h
      rw [Bool.or_eq_false_iff] at h2
      have h5 : matchChunkSigAt (b :: rest) = none := by
        cases hm : matchChunkSigAt (b :: rest)
        · rfl
        · rw [hm] at h2; simp at h2
      simp [stripChunkSigGo, h5, ih rest h2.2]

/-- A byte sequence with no chunk-signature match is returned untouched. -/
theorem stripChunkSignatures_of_no_match {l : List Nat} (h : hasChunkSig l = false) :
    stripChunkSignatures l = l :=
  stripChunkSigGo_of_no_match l.length l h

/-- The post-processing applied to fetched bytes is the identity when the
multipart flag is off or the bytes have no chunk-signature match. -/
theorem postprocess_id_of_ok {m : MinioObjectStore} {b : Blob}
    (hok : m.disableMultipart = false ∨ hasChunkSig b = false) :
    (if m.disableMultipart then stripChunkSignatures b else b) = b := by
  rcases hok with hf | hns
  · simp [hf]
  · cases hd : m.disableMultipart
    · simp
    · simp [stripChunkSignatures_of_no_match hns]

/-! ### Unfolding lemmas for the adapter operations. -/

/-- `AddFile` issues exactly the one put call, with the size it computed from
the multipart flag, whether or not the put succeeds. -/
theorem AddFile_calls (m : MinioObjectStore) (b : Blob) (p : String) :
    (m.AddFile b p).2 =
      [ClientCall.putObject m.bucketName p b
        (if m.disableMultipart then (b.length : Int) else multipartDefaultSize)
        "application/octet-stream"] := by
  unfold MinioObjectStore.AddFile
  cases hput : m.minioClient.putObject m.bucketName p b
      (if m.disableMultipart then (b.length : Int) else multipartDefaultSize)
      "application/octet-stream" <;> simp [hput]

/-- `GetFile` on a successful get: the raw bytes post-processed according to
the multipart flag, and the single get call. -/
theorem GetFile_eq_of_get_ok (m : MinioObjectStore) (p : String) (raw : Blob)
    (hget : m.minioClient.getObject m.bucketName p = Except.ok raw) :
    m.GetFile p =
      (Except.ok (if m.disableMultipart then stripChunkSignatures raw else raw),
       [ClientCall.getObject m.bucketName p]) := by
  simp [MinioObjectStore.GetFile, hget]

/-! ### Claim theorems -/

/-- C1: for every byte sequence returned by the underlying client, `GetFile`
returns those bytes with every non-overlapping match of
`\w+;chunk-signature=\w+` removed when `disableMultipart` is true, and the raw
bytes unchanged when `disableMultipart` is false; in either case exactly one
`getObject` call is made. -/
theorem GetFile_postprocessing (m : MinioObjectStore) (p : String) (raw : Blob)
    (hget : m.minioClient.getObject m.bucketName p = Except.ok raw) :
    m.GetFile p =
      (Except.ok (if m.disableMultipart then stripChunkSignatures raw else raw),
       [ClientCall.getObject m.bucketName p]) :=
  GetFile_eq_of_get_ok m p raw hget

/-- Raw bytes used by the C1 witness: the spec's example substring
`abc123;chunk-signature=def456` embedded between other bytes. -/
def c1Raw : Blob := toBytes "A!abc123;chunk-signature=def456!B"

/-- C1 witness: on a store with `disableMultipart = true` whose client returns
`c1Raw`, `GetFile` strips the embedded pattern and leaves the surrounding
bytes `A!` and `!B` untouched. -/
theorem GetFile_postprocessing_witness :
    (NewMinioObjectStore (okClient c1Raw) "mlpipeline" "" true).GetFile "pipelines/p1" =
      (Except.ok (toBytes "A!!B"), [ClientCall.getObject "mlpipeline" "pipelines/p1"]) := by
  have h := GetFile_postprocessing
    (NewMinioObjectStore (okClient c1Raw) "mlpipeline" "" true) "pipelines/p1" c1Raw rfl
  rw [h]
  rfl

/-- C4: `AddFile` issues exactly one put whose declared size is the exact byte
length of the blob when `disableMultipart` is true and the sentinel
`multipartDefaultSize` otherwise, and the sentinel is `-1`. -/
theorem AddFile_declared_size (m : MinioObjectStore) (b : Blob) (p : String) :
    (m.AddFile b p).2 =
      [ClientCall.putObject m.bucketName p b
        (if m.disableMultipart then (b.length : Int) else multipartDefaultSize)
        "application/octet-stream"] ∧
    multipartDefaultSize = -1 :=
  ⟨AddFile_calls m b p, rfl⟩

/-- C5: `GetPipelineKey` is the Go path-join of the base folder and the id,
depends on nothing but the base folder (in particular it makes no client
call), and satisfies the spec's two examples. -/
theorem GetPipelineKey_is_path_join (c c2 : MinioClientInterface) (bk bk2 base pid : String)
    (d d2 : Bool) :
    (NewMinioObjectStore c bk base d).GetPipelineKey pid = goPathJoin base pid ∧
    (NewMinioObjectStore c bk base d).GetPipelineKey pid =
      (NewMinioObjectStore c2 bk2 base d2).GetPipelineKey pid ∧
    goPathJoin "pipelines" "abc" = "pipelines/abc" ∧
    goPathJoin "" "abc" = "abc" :=
  ⟨rfl, rfl, by decide, by decide⟩

/-- C10: the joined key is cleaned, so `..` segments in the id escape the base
folder (`pipelines` + `../abc` gives `abc`), and an empty id returns the
cleaned base folder with no trailing separator (`pipelines/` + empty gives
`pipelines`). -/
theorem GetPipelineKey_not_confined (c c2 : MinioClientInterface) (bk bk2 : String)
    (d d2 : Bool) :
    (NewMinioObjectStore c bk "pipelines" d).GetPipelineKey "../abc" = "abc" ∧
    (NewMinioObjectStore c2 bk2 "pipelines/" d2).GetPipelineKey "" = "pipelines" :=
  ⟨rfl, rfl⟩

/-- C2: when the client's get returns exactly the bytes that `AddFile` put for
the key, `AddFile` followed by `GetFile` returns the blob unchanged, provided
`disableMultipart` is false or the blob contains no chunk-signature match.
The first conjunct records that the bytes put are exactly `b`. -/
theorem AddFile_GetFile_roundtrip (m : MinioObjectStore) (b : Blob) (p : String)
    (hget : m.minioClient.getObject m.bucketName p = Except.ok b)
    (hok : m.disableMultipart = false ∨ hasChunkSig b = false) :
    (m.AddFile b p).2 =
      [ClientCall.putObject m.bucketName p b
        (if m.disableMultipart then (b.length : Int) else multipartDefaultSize)
        "application/octet-stream"] ∧
    (m.GetFile p).1 = Except.ok b := by
  refine ⟨AddFile_calls m b p, ?_⟩
  rw [GetFile_eq_of_get_ok m p b hget, postprocess_id_of_ok hok]

/-- Blob used by the C2 witness: ordinary content without the pattern. -/
def c2Blob : Blob := toBytes "kind: Pipeline"

/-- C2 witness: with `disableMultipart = true` and a blob free of the pattern,
the put declares size 14 and the round trip returns the blob. -/
theorem AddFile_GetFile_roundtrip_witness :
    ((NewMinioObjectStore (okClient c2Blob) "mlpipeline" "" true).AddFile c2Blob "p").2 =
      [ClientCall.putObject "mlpipeline" "p" c2Blob 14 "application/octet-stream"] ∧
    ((NewMinioObjectStore (okClient c2Blob) "mlpipeline" "" true).GetFile "p").1 =
      Except.ok c2Blob := by
  have h := AddFile_GetFile_roundtrip
    (NewMinioObjectStore (okClient c2Blob) "mlpipeline" "" true) c2Blob "p" rfl
    (Or.inr (by decide))
  exact ⟨h.1.trans (by rfl), h.2⟩

/-- Value used to refute C3: its (faithful) serialization is a full match of
the chunk-signature pattern. -/
def c3Value : Blob := toBytes "abc;chunk-signature=def"

/-- The store used to refute C3: faithful client (get returns exactly the
bytes the codec produced and `AddFile` put), `disableMultipart = true`. -/
def c3Store : MinioObjectStore :=
  NewMinioObjectStore (okClient c3Value) "mlpipeline" "" true

/-- C3 counterexample: a faithful codec (`bytesCodec`, identity on bytes) and
a faithful store; `AddAsYamlFile` succeeds, get returns exactly the marshaled
bytes, yet `GetFromYamlFile` hands the codec the stripped bytes and yields
`[]`, not the original value: the round trip fails although the spec's claim
has no proviso about `disableMultipart` or pattern-free content. -/
theorem yaml_roundtrip_counterexample :
    (c3Store.AddAsYamlFile bytesCodec c3Value "p").1 = Except.ok () ∧
    bytesCodec.marshal c3Value = Except.ok c3Value ∧
    bytesCodec.unmarshal c3Value = Except.ok c3Value ∧
    c3Store.minioClient.getObject c3Store.bucketName "p" = Except.ok c3Value ∧
    (c3Store.GetFromYamlFile bytesCodec [] "p").1 = Except.ok () ∧
    (c3Store.GetFromYamlFile bytesCodec [] "p").2.1 = [] ∧
    (c3Store.GetFromYamlFile bytesCodec [] "p").2.1 ≠ c3Value := by
  refine ⟨rfl, rfl, rfl, rfl, rfl, rfl, ?_⟩
  intro h
  exact absurd (h.symm.trans rfl) (by decide)

/-- C3 amended: the YAML round trip (`AddAsYamlFile` then `GetFromYamlFile`
yields the original value) holds for a faithful codec and a faithful store
provided `disableMultipart` is false, or the marshaled bytes contain no
chunk-signature match. -/
theorem yaml_roundtrip_amended {α : Type} (m : MinioObjectStore) (codec : YamlCodec α)
    (v o : α) (p : String) (bs : Blob)
    (hm : codec.marshal v = Except.ok bs)
    (hu : codec.unmarshal bs = Except.ok v)
    (hput : m.minioClient.putObject m.bucketName p bs
        (if m.disableMultipart then (bs.length : Int) else multipartDefaultSize)
        "application/octet-stream" = Except.ok ())
    (hget : m.minioClient.getObject m.bucketName p = Except.ok bs)
    (hok : m.disableMultipart = false ∨ hasChunkSig bs = false) :
    (m.AddAsYamlFile codec v p).1 = Except.ok () ∧
    (m.GetFromYamlFile codec o p).1 = Except.ok () ∧
    (m.GetFromYamlFile codec o p).2.1 = v := by
  have hfile := GetFile_eq_of_get_ok m p bs hget
  rw [postprocess_id_of_ok hok] at hfile
  refine ⟨?_, ?_, ?_⟩
  · simp [MinioObjectStore.AddAsYamlFile, hm, MinioObjectStore.AddFile, hput]
  · simp [MinioObjectStore.GetFromYamlFile, hfile, hu]
  · simp [MinioObjectStore.GetFromYamlFile, hfile, hu]

/-- C3 amended witness: a pattern-free value round-trips through the YAML
path on a faithful client with `disableMultipart = true`. -/
theorem yaml_roundtrip_amended_witness :
    ((NewMinioObjectStore (okClient c2Blob) "mlpipeline" "" true).AddAsYamlFile
        bytesCodec c2Blob "p").1 = Except.ok () ∧
    ((NewMinioObjectStore (okClient c2Blob) "mlpipeline" "" true).GetFromYamlFile
        bytesCodec [] "p").1 = Except.ok () ∧
    ((NewMinioObjectStore (okClient c2Blob) "mlpipeline" "" true).GetFromYamlFile
        bytesCodec [] "p").2.1 = c2Blob :=
  yaml_roundtrip_amended
    (NewMinioObjectStore (okClient c2Blob) "mlpipeline" "" true)
    bytesCodec c2Blob [] "p" c2Blob rfl rfl rfl rfl (Or.inr (by decide))

/-- C6: a failing put, get or delete makes `AddFile`, `GetFile`, `DeleteFile`
return an error wrapped with the operation's own distinct template, carrying
the affected file path in the format arguments and the underlying cause at the
root; the call trace holds exactly the one failing call, so no other client
operation is invoked as compensation.  The last three conjuncts record that
the three templates are pairwise distinct kinds. -/
theorem client_error_propagation (m : MinioObjectStore) (b : Blob) (p : String)
    (e1 e2 e3 : String) :
    (m.minioClient.putObject m.bucketName p b
        (if m.disableMultipart then (b.length : Int) else multipartDefaultSize)
        "application/octet-stream" = Except.error e1 →
      m.AddFile b p =
        (Except.error (APIError.internalServerError e1 "Failed to store file %v" [p]),
         [ClientCall.putObject m.bucketName p b
           (if m.disableMultipart then (b.length : Int) else multipartDefaultSize)
           "application/octet-stream"]) ∧
      (APIError.internalServerError e1 "Failed to store file %v" [p]).rootCause = e1) ∧
    (m.minioClient.getObject m.bucketName p = Except.error e2 →
      m.GetFile p =
        (Except.error (APIError.internalServerError e2 "Failed to get file %v" [p]),
         [ClientCall.getObject m.bucketName p]) ∧
      (APIError.internalServerError e2 "Failed to get file %v" [p]).rootCause = e2) ∧
    (m.minioClient.deleteObject m.bucketName p = Except.error e3 →
      m.DeleteFile p =
        (Except.error (APIError.internalServerError e3 "Failed to delete file %v" [p]),
         [ClientCall.deleteObject m.bucketName p]) ∧
      (APIError.internalServerError e3 "Failed to delete file %v" [p]).rootCause = e3) ∧
    ("Failed to store file %v" : String) ≠ "Failed to get file %v" ∧
    ("Failed to store file %v" : String) ≠ "Failed to delete file %v" ∧
    ("Failed to get file %v" : String) ≠ "Failed to delete file %v" := by
  refine ⟨fun hput => ⟨?_, rfl⟩, fun hget => ⟨?_, rfl⟩, fun hdel => ⟨?_, rfl⟩,
    by decide, by decide, by decide⟩
  · simp [MinioObjectStore.AddFile, hput]
  · simp [MinioObjectStore.GetFile, hget]
  · simp [MinioObjectStore.DeleteFile, hdel]

/-- C6 witness: on a client that refuses every call, the three adapter
operations return the three distinct wrapped errors, each with the path in
its arguments, cause `connection refused`, and a one-call trace. -/
theorem client_error_propagation_witness :
    (NewMinioObjectStore errClient "mlpipeline" "" false).AddFile (toBytes "x") "k" =
      (Except.error (APIError.internalServerError "connection refused"
        "Failed to store file %v" ["k"]),
       [ClientCall.putObject "mlpipeline" "k" (toBytes "x") (-1) "application/octet-stream"]) ∧
    (NewMinioObjectStore errClient "mlpipeline" "" false).GetFile "k" =
      (Except.error (APIError.internalServerError "connection refused"
        "Failed to get file %v" ["k"]),
       [ClientCall.getObject "mlpipeline" "k"]) ∧
    (NewMinioObjectStore errClient "mlpipeline" "" false).DeleteFile "k" =
      (Except.error (APIError.internalServerError "connection refused"
        "Failed to delete file %v" ["k"]),
       [ClientCall.deleteObject "mlpipeline" "k"]) := by
  obtain ⟨h1, h2, h3, _⟩ := client_error_propagation
    (NewMinioObjectStore errClient "mlpipeline" "" false) (toBytes "x") "k"
    "connection refused" "connection refused" "connection refused"
  exact ⟨(h1 rfl).1, (h2 rfl).1, (h3 rfl).1⟩

/-- C7: a value the codec cannot marshal makes `AddAsYamlFile` return the
`Failed to marshal file` error with an empty call trace (no call to the
underlying store); fetched bytes the codec cannot deserialize make
`GetFromYamlFile` return the `Failed to unmarshal file` error after its one
successful get. -/
theorem yaml_codec_error_propagation {α : Type} (m : MinioObjectStore)
    (codec : YamlCodec α) (v o : α) (p : String) (e1 e2 : String) (bs : Blob) :
    (codec.marshal v = Except.error e1 →
      m.AddAsYamlFile codec v p =
        (Except.error (APIError.internalServerError e1
          "Failed to marshal file %v: %v" [p, e1]), [])) ∧
    (m.minioClient.getObject m.bucketName p = Except.ok bs →
      codec.unmarshal (if m.disableMultipart then stripChunkSignatures bs else bs) =
        Except.error e2 →
      m.GetFromYamlFile codec o p =
        (Except.error (APIError.internalServerError e2
          "Failed to unmarshal file %v: %v" [p, e2]), o,
         [ClientCall.getObject m.bucketName p])) := by
  constructor
  · intro hm
    simp [MinioObjectStore.AddAsYamlFile, hm]
  · intro hget hu
    have hfile := GetFile_eq_of_get_ok m p bs hget
    unfold MinioObjectStore.GetFromYamlFile
    rw [hfile]
    simp [hu]

/-- C7 witness: on a failing codec, `AddAsYamlFile` returns the marshal error
with no client call, and `GetFromYamlFile` returns the unmarshal error after
its single get. -/
theorem yaml_codec_error_propagation_witness :
    (NewMinioObjectStore (okClient c2Blob) "mlpipeline" "" false).AddAsYamlFile
        failingCodec c2Blob "k" =
      (Except.error (APIError.internalServerError "unsupported type"
        "Failed to marshal file %v: %v" ["k", "unsupported type"]), []) ∧
    (NewMinioObjectStore (okClient c2Blob) "mlpipeline" "" false).GetFromYamlFile
        failingCodec [] "k" =
      (Except.error (APIError.internalServerError "error converting YAML to JSON"
        "Failed to unmarshal file %v: %v" ["k", "error converting YAML to JSON"]), [],
       [ClientCall.getObject "mlpipeline" "k"]) := by
  obtain ⟨h1, h2⟩ := yaml_codec_error_propagation
    (NewMinioObjectStore (okClient c2Blob) "mlpipeline" "" false)
    failingCodec c2Blob [] "k" "unsupported type" "error converting YAML to JSON" c2Blob
  exact ⟨h1 rfl, h2 rfl rfl⟩

/-- C8: the constructor stores the four configuration fields as given, and
every one of the six operations leaves the receiver exactly as it was passed
in (no method body assigns to a field). -/
theorem configuration_immutable (c : MinioClientInterface) (bk bf : String) (d : Bool)
    (m : MinioObjectStore) {α : Type} (codec : YamlCodec α) (v o : α) (b : Blob)
    (p pid : String) :
    (NewMinioObjectStore c bk bf d).minioClient = c ∧
    (NewMinioObjectStore c bk bf d).bucketName = bk ∧
    (NewMinioObjectStore c bk bf d).baseFolder = bf ∧
    (NewMinioObjectStore c bk bf d).disableMultipart = d ∧
    (m.GetPipelineKeySt pid).2 = m ∧
    (m.AddFileSt b p).2 = m ∧
    (m.DeleteFileSt p).2 = m ∧
    (m.GetFileSt p).2 = m ∧
    (m.AddAsYamlFileSt codec v p).2 = m ∧
    (m.GetFromYamlFileSt codec o p).2 = m :=
  ⟨rfl, rfl, rfl, rfl, rfl, rfl, rfl, rfl, rfl, rfl⟩

/-- C9: when the client's get fails, `GetFromYamlFile` returns the read error
wrapped as `Failed to read from a yaml file`, the out-reference exactly as the
caller passed it, and a one-get trace; the result does not depend on the codec
at all, so the unmarshal step is never invoked. -/
theorem read_failure_skips_unmarshal {α : Type} (m : MinioObjectStore)
    (codec : YamlCodec α) (o : α) (p : String) (e : String)
    (hget : m.minioClient.getObject m.bucketName p = Except.error e) :
    m.GetFromYamlFile codec o p =
      (Except.error (APIError.wrapped
          (APIError.internalServerError e "Failed to get file %v" [p])
          "Failed to read from a yaml file"),
       o, [ClientCall.getObject m.bucketName p]) ∧
    (∀ codec2 : YamlCodec α, m.GetFromYamlFile codec2 o p = m.GetFromYamlFile codec o p) := by
  have hfail : ∀ codec2 : YamlCodec α,
      m.GetFromYamlFile codec2 o p =
        (Except.error (APIError.wrapped
            (APIError.internalServerError e "Failed to get file %v" [p])
            "Failed to read from a yaml file"),
         o, [ClientCall.getObject m.bucketName p]) := by
    intro codec2
    unfold MinioObjectStore.GetFromYamlFile MinioObjectStore.GetFile
    rw [hget]
  exact ⟨hfail codec, fun codec2 => (hfail codec2).trans (hfail codec).symm⟩

/-- C9 witness: on a client whose get fails, `GetFromYamlFile` returns the
wrapped read error, leaves the out-reference (the empty blob) untouched, and
issues exactly one get. -/
theorem read_failure_skips_unmarshal_witness :
    (NewMinioObjectStore errClient "mlpipeline" "" false).GetFromYamlFile
        failingCodec [] "k" =
      (Except.error (APIError.wrapped
          (APIError.internalServerError "connection refused" "Failed to get file %v" ["k"])
          "Failed to read from a yaml file"),
       [], [ClientCall.getObject "mlpipeline" "k"]) :=
  (read_failure_skips_unmarshal
    (NewMinioObjectStore errClient "mlpipeline" "" false)
    failingCodec [] "k" "connection refused" rfl).1
